import Mathlib

/-!
Verification of the cw-stream contract core (src/contract.rs, src/state.rs):
a token-streaming escrow where a deposited amount vests linearly between
`start_time` and `end_time` and the recipient withdraws the vested portion.

The embedding models `Uint128` as `Nat` with explicit checked operations:
cosmwasm's `Uint128` arithmetic operators (`-`, `/`, `*`, `+=`) abort the
transaction (Rust panic) on underflow, division by zero, and overflow, so
each operation returns `Option Nat` and a `none` is propagated as the
`panic` outcome.  Addresses are plain strings together with a validity
predicate standing for `deps.api.addr_validate` (which returns its input
unchanged when the input is a valid normalized address).
-/

namespace CwStream

/-- `2 ^ 128`, the number of values of `Uint128`. -/
def U128_MOD : Nat := 2 ^ 128

/-- `Uint128` subtraction (`impl Sub for Uint128`): panics on underflow. -/
def u128_sub (a b : Nat) : Option Nat :=
  if b ≤ a then some (a - b) else none

/-- `Uint128` division (`impl Div for Uint128`): panics on division by zero;
truncates toward zero. -/
def u128_div (a b : Nat) : Option Nat :=
  if b = 0 then none else some (a / b)

/-- `Uint128` multiplication (`impl Mul for Uint128`): panics on overflow. -/
def u128_mul (a b : Nat) : Option Nat :=
  if a * b < U128_MOD then some (a * b) else none

/-- `Uint128` addition (`impl Add / AddAssign for Uint128`): panics on
overflow. -/
def u128_add (a b : Nat) : Option Nat :=
  if a + b < U128_MOD then some (a + b) else none

/-- `Uint128::checked_add`: returns an overflow error value (`none` here)
instead of panicking; used by `save_stream` in state.rs line 31. -/
def checked_add (a b : Nat) : Option Nat :=
  if a + b < U128_MOD then some (a + b) else none

/-- The contract's error type.  The repository's `error.rs` is not among the
given sources; the variants below are the ones contract.rs constructs, plus
those produced through `?` from `StdError` (storage load of an absent key,
`checked_add` overflow, `addr_validate` failure), plus `InvalidWindow`.
`InvalidWindow` is modelled from the spec: §7 lists it as a distinct
creation-validation error for an inverted window, although contract.rs never
constructs it. -/
inductive ContractError where
  | NotStreamRecipient
  | StreamFullyClaimed
  | StreamNotStarted
  | NoFundsToClaim
  | InvalidStartTime
  | Unauthorized
  | InvalidWindow
  | StdNotFound
  | StdOverflow
  | StdInvalidAddress
deriving DecidableEq, Repr

/-- Outcome of one contract invocation: a value, a returned `ContractError`,
or a Rust panic (`panic` aborts the invocation without a typed error). -/
inductive Outcome (α : Type) where
  | ok : α → Outcome α
  | err : ContractError → Outcome α
  | panic : Outcome α
deriving DecidableEq, Repr

/-- The `Stream` record of state.rs (lines 15–24).  state.rs additionally
declares a `rate_per_second` field, but `try_create_stream` (contract.rs
lines 134–141) constructs `Stream` without it and no code reads it, so it is
omitted here. -/
structure Stream where
  owner : String
  recipient : String
  amount : Nat
  claimed_amount : Nat
  start_time : Nat
  end_time : Nat
deriving DecidableEq, Repr

/-- The singleton `Config` record of state.rs (lines 7–11). -/
structure Config where
  owner : String
  cw20_addr : String
deriving DecidableEq, Repr

/-- The host environment: the block time in nanoseconds
(`env.block.time.nanos()`). -/
structure Env where
  block_time_nanos : Nat
deriving DecidableEq, Repr

/-- The contract's persisted storage: the `STREAM_SEQ` counter and the
`STREAMS` map. -/
structure ContractState where
  stream_seq : Nat
  streams : Nat → Option Stream

/-- `deps.api.addr_validate`: succeeds (returning the input unchanged)
exactly when the address is valid according to the host's predicate. -/
def addr_validate (api : String → Bool) (s : String) : Option String :=
  if api s then some s else none

/-- `instantiate` (contract.rs lines 18–42), restricted to the `Config` it
persists: the owner is `msg.owner.and_then(|s| addr_validate(s).ok())
.unwrap_or(info.sender)` and the cw20 address must validate.  The sequence
counter is saved as 0 (line 36), which `initState` reflects. -/
def instantiate (api : String → Bool) (sender : String)
    (msg_owner : Option String) (msg_cw20_addr : String) : Outcome Config :=
  let owner :=
    match msg_owner.bind (fun s => addr_validate api s) with
    | some a => a
    | none => sender
  match addr_validate api msg_cw20_addr with
  | none => .err .StdInvalidAddress
  | some a => .ok { owner := owner, cw20_addr := a }

/-- The body of `try_withdraw` (contract.rs lines 57–108) after the
`STREAMS.load`: authorization, the (duplicated) fully-claimed guard, the
start-time guard, and the claimable computation
`((block_time - start_time) / (end_time - start_time) * amount) - claimed`,
with every `Uint128` operator modelled as its checked version and `none`
mapped to `panic`.  The source's local binding
`block_time = env.block.time.nanos() / 1_000_000` is inlined at its use
sites.  Returns the updated stream and the transferred amount. -/
def try_withdraw_stream (env : Env) (sender : String) (stream : Stream) :
    Outcome (Stream × Nat) :=
  if stream.recipient ≠ sender then .err .NotStreamRecipient
  else if stream.claimed_amount ≥ stream.amount then .err .StreamFullyClaimed
  else if stream.claimed_amount ≥ stream.amount then .err .StreamFullyClaimed
  else
    if stream.start_time < env.block_time_nanos / 1000000 then
      .err .StreamNotStarted
    else
      match u128_sub (env.block_time_nanos / 1000000) stream.start_time with
      | none => .panic
      | some elapsed =>
        match u128_sub stream.end_time stream.start_time with
        | none => .panic
        | some window =>
          match u128_div elapsed window with
          | none => .panic
          | some quotient =>
            match u128_mul quotient stream.amount with
            | none => .panic
            | some vested =>
              match u128_sub vested stream.claimed_amount with
              | none => .panic
              | some claimable =>
                if claimable < 0 then .err .NoFundsToClaim
                else
                  match u128_add stream.claimed_amount claimable with
                  | none => .panic
                  | some newClaimed =>
                    .ok ({ stream with claimed_amount := newClaimed },
                      claimable)

/-- `try_withdraw` (contract.rs lines 57–108): loads the stream, runs the
withdrawal body, and persists the updated stream on success. -/
def try_withdraw (env : Env) (st : ContractState) (sender : String)
    (id : Nat) : Outcome (ContractState × Nat) :=
  match st.streams id with
  | none => .err .StdNotFound
  | some stream =>
    match try_withdraw_stream env sender stream with
    | .ok (s, claimable) =>
      .ok ({ st with
              streams := fun k => if k = id then some s else st.streams k },
        claimable)
    | .err e => .err e
    | .panic => .panic

/-- `save_stream` (state.rs lines 29–34): loads the counter, increments it
with `checked_add` (an overflow is returned as an error through `?`, never
wrapped), persists it, and stores the stream under the new id.  The source
returns `StdResult<()>`; the allocated id is returned here so theorems can
speak about it. -/
def save_stream (st : ContractState) (stream : Stream) :
    Outcome (ContractState × Nat) :=
  match checked_add st.stream_seq 1 with
  | none => .err .StdOverflow
  | some id =>
    .ok ({ stream_seq := id,
           streams := fun k => if k = id then some stream else st.streams k },
      id)

/-- `try_create_stream` (contract.rs lines 110–152): rejects
`start_time > end_time` and `start_time < block_time` (both with
`InvalidStartTime`; the source's `block_time` binding is inlined),
validates both addresses (the source's
`assert_eq!(validated, input)` holds by construction here because
`addr_validate` returns its input unchanged), and persists a stream with
`claimed_amount = 0` via `save_stream`. -/
def try_create_stream (env : Env) (api : String → Bool) (st : ContractState)
    (owner recipient : String) (amount start_time end_time : Nat) :
    Outcome (ContractState × Nat) :=
  if start_time > end_time then .err .InvalidStartTime
  else
    if start_time < env.block_time_nanos / 1000000 then
      .err .InvalidStartTime
    else
      match addr_validate api owner with
      | none => .err .StdInvalidAddress
      | some validated_owner =>
        match addr_validate api recipient with
        | none => .err .StdInvalidAddress
        | some validated_recipient =>
          save_stream st
            { owner := validated_owner
              recipient := validated_recipient
              amount := amount
              claimed_amount := 0
              start_time := start_time
              end_time := end_time }

/-- One externally triggered operation against the contract: a stream
creation (via the cw20 receive hook) or a withdrawal, each executing at its
own block time. -/
inductive Op where
  | create (env : Env) (api : String → Bool) (owner recipient : String)
      (amount start_time end_time : Nat)
  | withdraw (env : Env) (sender : String) (id : Nat)

/-- The host's per-invocation atomicity: a successful invocation commits its
state, a failed one (error or panic) discards all of its writes. -/
def stepOp (st : ContractState) (op : Op) : ContractState :=
  match op with
  | .create env api owner recipient amount start_time end_time =>
    match try_create_stream env api st owner recipient amount start_time
        end_time with
    | .ok (st2, _) => st2
    | .err _ => st
    | .panic => st
  | .withdraw env sender id =>
    match try_withdraw env st sender id with
    | .ok (st2, _) => st2
    | .err _ => st
    | .panic => st

/-- The storage right after `instantiate`: `STREAM_SEQ = 0` (contract.rs
line 36) and no streams. -/
def initState : ContractState :=
  { stream_seq := 0, streams := fun _ => none }

/-- The contract state after a sequence of operations, starting from
instantiation. -/
def execOps (ops : List Op) : ContractState :=
  List.foldl stepOp initState ops

/-- `iterCreate ... n`: starting from instantiation, run the same creation
request `n` times, collecting the allocated identifiers in order (failed
creations allocate nothing). -/
def iterCreate (env : Env) (api : String → Bool) (owner recipient : String)
    (amount start_time end_time : Nat) : Nat → ContractState × List Nat
  | 0 => (initState, [])
  | n + 1 =>
    let p := iterCreate env api owner recipient amount start_time end_time n
    match try_create_stream env api p.1 owner recipient amount start_time
        end_time with
    | .ok (st2, id) => (st2, p.2 ++ [id])
    | .err _ => p
    | .panic => p

/-- Invariant of every reachable contract state: every stored stream id is
at most the sequence counter, and every stored stream has
`claimed_amount ≤ amount` and `start_time ≤ end_time`. -/
def LedgerInv (st : ContractState) : Prop :=
  ∀ id s, st.streams id = some s →
    id ≤ st.stream_seq ∧ s.claimed_amount ≤ s.amount ∧
      s.start_time ≤ s.end_time

lemma u128_sub_eq_some {a b c : Nat} :
    u128_sub a b = some c ↔ b ≤ a ∧ c = a - b := by
  unfold u128_sub
  split <;> simp_all
  all_goals omega

lemma u128_div_eq_some {a b c : Nat} :
    u128_div a b = some c ↔ b ≠ 0 ∧ c = a / b := by
  unfold u128_div
  split <;> simp_all
  all_goals omega

lemma u128_mul_eq_some {a b c : Nat} :
    u128_mul a b = some c ↔ a * b < U128_MOD ∧ c = a * b := by
  unfold u128_mul
  split <;> simp_all
  all_goals omega

lemma u128_add_eq_some {a b c : Nat} :
    u128_add a b = some c ↔ a + b < U128_MOD ∧ c = a + b := by
  unfold u128_add
  split <;> simp_all
  all_goals omega

lemma checked_add_eq_some {a b c : Nat} :
    checked_add a b = some c ↔ a + b < U128_MOD ∧ c = a + b := by
  unfold checked_add
  split <;> simp_all
  all_goals omega

lemma addr_validate_eq_some {api : String → Bool} {s t : String} :
    addr_validate api s = some t ↔ api s = true ∧ t = s := by
  unfold addr_validate
  split
  · rename_i h
    simp only [h, Option.some.injEq, true_and]
    exact ⟨fun e => e.symm, fun e => e.symm⟩
  · rename_i h
    simp only [Bool.not_eq_true] at h
    simp [h]

/-- A successful withdrawal returns the stream unchanged and transfers 0:
the only way past the start-time guard without a panic is
`block_time = start_time`, where the elapsed time is 0, the integer
quotient is 0, the vested total is 0, and `0 - claimed_amount` only avoids
underflow when `claimed_amount = 0`. -/
lemma try_withdraw_stream_ok {env : Env} {sender : String}
    {stream s : Stream} {c : Nat}
    (h : try_withdraw_stream env sender stream = .ok (s, c)) :
    s = stream ∧ c = 0 ∧ stream.claimed_amount = 0 := by
  obtain ⟨o, r, a, ca, ts, te⟩ := stream
  unfold try_withdraw_stream at h
  repeat (split at h
          any_goals exact Outcome.noConfusion h)
  rename_i hrecip hfull hstart x1 elapsed he x2 window hw x3 quotient hq x4
    vested hm x5 claimable hs2 hguard x6 nc hn
  dsimp only at he hw hq hm hs2 hn h hfull hstart ⊢
  rw [u128_sub_eq_some] at he hw hs2
  rw [u128_div_eq_some] at hq
  rw [u128_mul_eq_some] at hm
  rw [u128_add_eq_some] at hn
  obtain ⟨hble, helapsed⟩ := he
  obtain ⟨hwle, hwindow⟩ := hw
  obtain ⟨hwnz, hquot⟩ := hq
  obtain ⟨hmlt, hvested⟩ := hm
  obtain ⟨hcle, hclaim⟩ := hs2
  obtain ⟨hnlt, hnc⟩ := hn
  have he0 : elapsed = 0 := by omega
  have hq0 : quotient = 0 := by rw [hquot, he0, Nat.zero_div]
  have hv0 : vested = 0 := by rw [hvested, hq0, Nat.zero_mul]
  have hca0 : ca = 0 := by omega
  have hc0 : claimable = 0 := by omega
  have hn0 : nc = 0 := by omega
  simp only [Outcome.ok.injEq, Prod.mk.injEq] at h
  obtain ⟨hs, hc⟩ := h
  subst hca0 hc0 hn0
  exact ⟨hs.symm, hc.symm, rfl⟩

/-- A successful ledger-level withdrawal leaves the counter and every
stored stream unchanged (the saved stream equals the loaded one). -/
lemma try_withdraw_ok {env : Env} {st : ContractState} {sender : String}
    {id : Nat} {st2 : ContractState} {c : Nat}
    (h : try_withdraw env st sender id = .ok (st2, c)) :
    st2.stream_seq = st.stream_seq ∧ c = 0 ∧
      ∀ k, st2.streams k = st.streams k := by
  unfold try_withdraw at h
  split at h
  · exact Outcome.noConfusion h
  rename_i stream hload
  split at h
  case _ s claimable hwd =>
    obtain ⟨hs, hc, _⟩ := try_withdraw_stream_ok hwd
    subst hs
    cases h
    refine ⟨rfl, hc, fun k => ?_⟩
    by_cases hk : k = id <;> simp [hk, hload]
  · exact Outcome.noConfusion h
  · exact Outcome.noConfusion h

/-- A successful creation passed the window check, allocated the id
`stream_seq + 1`, advanced the counter to it, and stored the fresh stream
(with `claimed_amount = 0`) under that id, leaving all other ids alone. -/
lemma try_create_stream_ok {env : Env} {api : String → Bool}
    {st : ContractState} {owner recipient : String}
    {amount ts te : Nat} {st2 : ContractState} {id : Nat}
    (h : try_create_stream env api st owner recipient amount ts te =
      .ok (st2, id)) :
    ts ≤ te ∧ id = st.stream_seq + 1 ∧
      st2.stream_seq = st.stream_seq + 1 ∧
      ∀ k, st2.streams k = if k = st.stream_seq + 1
        then some ⟨owner, recipient, amount, 0, ts, te⟩
        else st.streams k := by
  unfold try_create_stream save_stream at h
  repeat (split at h
          any_goals exact Outcome.noConfusion h)
  rename_i hwin hstart x1 vo hvo x2 vr hvr x3 nid hadd
  obtain ⟨hapio, hvoe⟩ := addr_validate_eq_some.mp hvo
  obtain ⟨hapir, hvre⟩ := addr_validate_eq_some.mp hvr
  obtain ⟨hlt, hnid⟩ := checked_add_eq_some.mp hadd
  subst hvoe hvre hnid
  simp only [Outcome.ok.injEq, Prod.mk.injEq] at h
  obtain ⟨hst2, hid⟩ := h
  subst hst2 hid
  exact ⟨by omega, rfl, rfl, fun k => rfl⟩

/-- No operation ever changes or removes an already-stored stream: a
successful withdrawal writes back an identical record, and a successful
creation writes only to the fresh id `stream_seq + 1`, which no stored id
equals by the ledger invariant. -/
lemma stepOp_stream_frozen {st : ContractState} (hinv : LedgerInv st)
    (op : Op) {id : Nat} {s : Stream} (h : st.streams id = some s) :
    (stepOp st op).streams id = some s := by
  cases op with
  | create env api owner recipient amount ts te =>
    simp only [stepOp]
    split
    case _ st2 nid heq =>
      obtain ⟨_, _, _, hstreams⟩ := try_create_stream_ok heq
      rw [hstreams]
      have hid : id ≤ st.stream_seq := (hinv id s h).1
      rw [if_neg (by omega)]
      exact h
    · exact h
    · exact h
  | withdraw env sender wid =>
    simp only [stepOp]
    split
    case _ st2 c heq =>
      rw [(try_withdraw_ok heq).2.2]
      exact h
    · exact h
    · exact h

/-- The ledger invariant is preserved by every operation. -/
lemma stepOp_LedgerInv {st : ContractState} (hinv : LedgerInv st) (op : Op) :
    LedgerInv (stepOp st op) := by
  cases op with
  | create env api owner recipient amount ts te =>
    simp only [stepOp]
    split
    case _ st2 nid heq =>
      obtain ⟨hwin, _, hseq, hstreams⟩ := try_create_stream_ok heq
      intro k sk hk
      rw [hstreams] at hk
      rw [hseq]
      by_cases hk1 : k = st.stream_seq + 1
      · rw [if_pos hk1] at hk
        cases hk
        exact ⟨by omega, by simp, hwin⟩
      · rw [if_neg hk1] at hk
        have := hinv k sk hk
        exact ⟨by omega, this.2.1, this.2.2⟩
    · exact hinv
    · exact hinv
  | withdraw env sender wid =>
    simp only [stepOp]
    split
    case _ st2 c heq =>
      obtain ⟨hseq, _, hstreams⟩ := try_withdraw_ok heq
      intro k sk hk
      rw [hstreams] at hk
      rw [hseq]
      exact hinv k sk hk
    · exact hinv
    · exact hinv

lemma initState_LedgerInv : LedgerInv initState := by
  intro k s h
  exact Option.noConfusion h

lemma foldl_LedgerInv (ops : List Op) (st : ContractState)
    (hinv : LedgerInv st) : LedgerInv (List.foldl stepOp st ops) := by
  induction ops generalizing st with
  | nil => exact hinv
  | cons op ops ih => exact ih _ (stepOp_LedgerInv hinv op)

/-- Every reachable contract state satisfies the ledger invariant. -/
lemma execOps_LedgerInv (ops : List Op) : LedgerInv (execOps ops) :=
  foldl_LedgerInv ops initState initState_LedgerInv

lemma execOps_append_one (ops : List Op) (op : Op) :
    execOps (ops ++ [op]) = stepOp (execOps ops) op := by
  unfold execOps
  rw [List.foldl_append]
  rfl

/-- Creation succeeds outright when the window is ordered, the start time
is not in the past, both addresses validate, and the counter increment does
not overflow; the id allocated is `stream_seq + 1`. -/
lemma try_create_stream_succeeds (env : Env) (api : String → Bool)
    (st : ContractState) (owner recipient : String) (amount ts te : Nat)
    (hwin : ts ≤ te) (hstart : env.block_time_nanos / 1000000 ≤ ts)
    (ho : api owner = true) (hr : api recipient = true)
    (hof : st.stream_seq + 1 < U128_MOD) :
    try_create_stream env api st owner recipient amount ts te =
      .ok ({ stream_seq := st.stream_seq + 1,
             streams := fun k => if k = st.stream_seq + 1
               then some ⟨owner, recipient, amount, 0, ts, te⟩
               else st.streams k },
        st.stream_seq + 1) := by
  unfold try_create_stream save_stream addr_validate checked_add
  rw [if_neg (show ¬ ts > te by omega),
    if_neg (show ¬ ts < env.block_time_nanos / 1000000 by omega),
    if_pos ho, if_pos hr, if_pos hof]

/-- Running `n` valid creations from instantiation leaves the counter at
`n` and allocates exactly the identifiers `1, 2, ..., n` in order. -/
lemma iterCreate_spec (env : Env) (api : String → Bool)
    (owner recipient : String) (amount ts te : Nat)
    (hwin : ts ≤ te) (hstart : env.block_time_nanos / 1000000 ≤ ts)
    (ho : api owner = true) (hr : api recipient = true) :
    ∀ n, n < U128_MOD →
      (iterCreate env api owner recipient amount ts te n).1.stream_seq = n ∧
      (iterCreate env api owner recipient amount ts te n).2 =
        List.range' 1 n := by
  intro n
  induction n with
  | zero => exact fun _ => ⟨rfl, rfl⟩
  | succ k ih =>
    intro hk
    obtain ⟨hseq, hids⟩ := ih (by omega)
    have hcs := try_create_stream_succeeds env api
      (iterCreate env api owner recipient amount ts te k).1 owner recipient
      amount ts te hwin hstart ho hr (by rw [hseq]; omega)
    simp only [iterCreate]
    rw [hcs, hids, hseq]
    refine ⟨rfl, ?_⟩
    rw [List.range'_1_concat]
    simp [Nat.add_comm]

/-- C1: the spec's scenario — stream with `amount = 100`,
`start_time = 10000`, `end_time = 25000` (a 15000 ms window), withdrawal by
the recipient at `now = 17500` — is claimed to pay out 50 tokens.  The code
instead rejects it with `StreamNotStarted`: contract.rs line 77 rejects
whenever `start_time < block_time`, i.e. whenever the stream has started,
so the prorated-claim path is unreachable at any `now` strictly inside the
window (and the formula on line 85 divides before multiplying, so it would
compute `floor(7500/15000) * 100 = 0`, not 50, even without the guard). -/
theorem C1_code_behavior :
    try_withdraw_stream ⟨17500000000⟩ "bob"
      ⟨"alice", "bob", 100, 0, 10000, 25000⟩ = .err .StreamNotStarted := by
  decide

/-- C2: at `now = end_time = 25000` the claim says the vested total is
clamped to `amount` and the withdrawal claims `amount - claimed_amount`.
The code has no clamping and its start-time guard (contract.rs line 77)
rejects any `now > start_time`, so the withdrawal fails with
`StreamNotStarted`; `claimed_amount` can never be driven to `amount`. -/
theorem C2_code_behavior :
    try_withdraw_stream ⟨25000000000⟩ "bob"
      ⟨"alice", "bob", 100, 0, 10000, 25000⟩ = .err .StreamNotStarted := by
  decide

/-- C4: the claim says the withdrawal fails with `StreamNotStarted` exactly
when `now < start_time` and proceeds whenever `now ≥ start_time`.  The
comparison on contract.rs line 77 is inverted: at `now = 10001 >
start_time = 10000` the code returns `StreamNotStarted`, and at
`now = 9999 < start_time` it passes the check and then panics on the
unguarded `block_time - start_time` underflow instead of returning
`StreamNotStarted`. -/
theorem C4_code_behavior :
    try_withdraw_stream ⟨10001000000⟩ "bob"
      ⟨"alice", "bob", 100, 0, 10000, 25000⟩ = .err .StreamNotStarted ∧
    try_withdraw_stream ⟨9999000000⟩ "bob"
      ⟨"alice", "bob", 100, 0, 10000, 25000⟩ = .panic := by
  constructor <;> decide

/-- C5: the claim says a withdrawal with computed claimable 0 fails with
`NoFundsToClaim`, so a second withdrawal at the same `now` fails.  The
guard on contract.rs line 87 compares the unsigned claimable against `< 0`,
which is never true: at `now = start_time = 10000` the claimable is 0 and
the call succeeds (returning the stream unchanged and transferring 0
tokens); since the state is unchanged, the second call at the same `now` is
this very same call and also succeeds instead of failing with
`NoFundsToClaim`. -/
theorem C5_code_behavior :
    try_withdraw_stream ⟨10000000000⟩ "bob"
      ⟨"alice", "bob", 100, 0, 10000, 25000⟩ =
      .ok (⟨"alice", "bob", 100, 0, 10000, 25000⟩, 0) := by
  decide

/-- C9: the claim says `try_withdraw` always returns `Ok` or a
`ContractError`.  The code can panic three ways on paths reaching the
claimable computation (contract.rs line 85): `block_time - start_time`
underflows whenever `now < start_time` (the line-77 guard only rejects
`now > start_time`); the divisor `end_time - start_time` is zero for a
stored zero-length window (creation admits `start_time = end_time`); and
`vested_total - claimed_amount` underflows when `claimed_amount > 0` at
`now = start_time`. -/
theorem C9_code_behavior :
    try_withdraw_stream ⟨500000000⟩ "bob"
      ⟨"alice", "bob", 100, 0, 1000, 2000⟩ = .panic ∧
    try_withdraw_stream ⟨5000000⟩ "bob"
      ⟨"alice", "bob", 100, 0, 5, 5⟩ = .panic ∧
    try_withdraw_stream ⟨5000000⟩ "bob"
      ⟨"alice", "bob", 100, 10, 5, 10⟩ = .panic := by
  refine ⟨?_, ?_, ?_⟩ <;> decide

/-- C6 counterexample: creating a stream with `start_time = 10 >
end_time = 5` fails with `InvalidStartTime` (contract.rs line 120), not
with the `InvalidWindow` error the claim names. -/
theorem C6_counterexample :
    try_create_stream ⟨0⟩ (fun _ => true) initState "alice" "bob" 100 10 5 =
      .err .InvalidStartTime ∧
    ContractError.InvalidStartTime ≠ ContractError.InvalidWindow := by
  constructor
  · rfl
  · decide

/-- C7 counterexample: creation only rejects `start_time > end_time`
(contract.rs line 119), so a zero-length window `start_time = end_time = 5`
is accepted and persisted — a stored stream violating the claimed strict
inequality `start_time < end_time`, for which the vesting divisor
`end_time - start_time` is zero. -/
theorem C7_counterexample :
    (stepOp initState
        (.create ⟨0⟩ (fun _ => true) "alice" "bob" 100 5 5)).streams 1 =
      some ⟨"alice", "bob", 100, 0, 5, 5⟩ ∧
    ¬ (Stream.mk "alice" "bob" 100 0 5 5).start_time <
        (Stream.mk "alice" "bob" 100 0 5 5).end_time := by
  constructor
  · rfl
  · decide

/-- C10: if the owner override in the instantiate message fails address
validation, `instantiate` does not fail with an address error: the `.ok()`
on contract.rs line 28 discards the failure, `unwrap_or` falls back to the
sender, and the result is identical to instantiating with no override; on
success the persisted owner is the sender. -/
theorem C10_invalid_owner_override (api : String → Bool)
    (sender bad cw20 : String) (hbad : api bad = false) :
    instantiate api sender (some bad) cw20 =
      instantiate api sender none cw20 ∧
    (api cw20 = true →
      instantiate api sender (some bad) cw20 =
        .ok { owner := sender, cw20_addr := cw20 }) := by
  unfold instantiate addr_validate
  simp [hbad]
  intro hcw
  simp [hcw]

/-- Witness for C10 at a concrete instance: the api accepts only `"ok"`,
the override `"bad"` is invalid, and instantiation by `"alice"` yields the
owner `"alice"` exactly as with no override. -/
theorem C10_invalid_owner_override_witness :
    ((fun s => s == "ok") "bad" = false) ∧
    (instantiate (fun s => s == "ok") "alice" (some "bad") "ok" =
      instantiate (fun s => s == "ok") "alice" none "ok" ∧
    ((fun s => s == "ok") "ok" = true →
      instantiate (fun s => s == "ok") "alice" (some "bad") "ok" =
        .ok { owner := "alice", cw20_addr := "ok" })) :=
  ⟨by decide,
    C10_invalid_owner_override (fun s => s == "ok") "alice" "bad" "ok"
      (by decide)⟩

/-- C3: for any operation sequence from instantiation, every stored stream
has `claimed_amount ≤ amount`, and across any further operation the stream
keeps its `amount` and its `claimed_amount` never decreases (and stays
bounded by `amount`). -/
theorem C3_claimed_monotone_bounded (ops : List Op) (op : Op) (id : Nat)
    (s : Stream) (h : (execOps ops).streams id = some s) :
    s.claimed_amount ≤ s.amount ∧
    ∃ s2, (execOps (ops ++ [op])).streams id = some s2 ∧
      s2.amount = s.amount ∧ s.claimed_amount ≤ s2.claimed_amount ∧
      s2.claimed_amount ≤ s2.amount := by
  have hinv := execOps_LedgerInv ops
  have hb := (hinv id s h).2.1
  refine ⟨hb, s, ?_, rfl, le_refl _, hb⟩
  rw [execOps_append_one]
  exact stepOp_stream_frozen hinv op h

/-- Witness for C3: a created stream, then a withdrawal step. -/
theorem C3_claimed_monotone_bounded_witness :
    (execOps [Op.create ⟨0⟩ (fun _ => true) "alice" "bob" 100 5 10]).streams
        1 = some ⟨"alice", "bob", 100, 0, 5, 10⟩ ∧
    ((Stream.mk "alice" "bob" 100 0 5 10).claimed_amount ≤
        (Stream.mk "alice" "bob" 100 0 5 10).amount ∧
      ∃ s2,
        (execOps ([Op.create ⟨0⟩ (fun _ => true) "alice" "bob" 100 5 10] ++
            [Op.withdraw ⟨5000000⟩ "bob" 1])).streams 1 = some s2 ∧
        s2.amount = (Stream.mk "alice" "bob" 100 0 5 10).amount ∧
        (Stream.mk "alice" "bob" 100 0 5 10).claimed_amount ≤
          s2.claimed_amount ∧
        s2.claimed_amount ≤ s2.amount) :=
  ⟨rfl, C3_claimed_monotone_bounded
    [Op.create ⟨0⟩ (fun _ => true) "alice" "bob" 100 5 10]
    (Op.withdraw ⟨5000000⟩ "bob" 1) 1 ⟨"alice", "bob", 100, 0, 5, 10⟩ rfl⟩

/-- C6 amended: a creation with `start_time > end_time` or
`start_time < now` always fails — but with `InvalidStartTime` in both
cases (contract.rs lines 119–126 reuse `InvalidStartTime` for the window
check; no `InvalidWindow` is raised) — and on failure nothing is persisted:
the state, streams and sequence counter included, is left exactly as it
was. -/
theorem C6_creation_rejection (env : Env) (api : String → Bool)
    (st : ContractState) (owner recipient : String) (amount ts te : Nat)
    (hfail : te < ts ∨ ts < env.block_time_nanos / 1000000) :
    try_create_stream env api st owner recipient amount ts te =
      .err .InvalidStartTime ∧
    stepOp st (.create env api owner recipient amount ts te) = st := by
  have herr : try_create_stream env api st owner recipient amount ts te =
      .err .InvalidStartTime := by
    unfold try_create_stream
    rcases hfail with hlt | hlt
    · rw [if_pos hlt]
    · by_cases hgt : ts > te
      · rw [if_pos hgt]
      · rw [if_neg hgt, if_pos hlt]
  refine ⟨herr, ?_⟩
  simp only [stepOp]
  rw [herr]

/-- Witness for C6 at an inverted window. -/
theorem C6_creation_rejection_witness :
    ((5 : Nat) < 10 ∨ (10 : Nat) < 0 / 1000000) ∧
    (try_create_stream ⟨0⟩ (fun _ => true) initState "alice" "bob" 100 10 5 =
        .err .InvalidStartTime ∧
      stepOp initState (.create ⟨0⟩ (fun _ => true) "alice" "bob" 100 10 5) =
        initState) :=
  ⟨Or.inl (by decide),
    C6_creation_rejection ⟨0⟩ (fun _ => true) initState "alice" "bob" 100 10
      5 (Or.inl (by decide))⟩

/-- C7 amended: every stored stream of any reachable state satisfies the
non-strict bound `start_time ≤ end_time`; equality (a zero-length window)
is accepted at creation, so the divisor `end_time - start_time` can be 0
for a stored stream. -/
theorem C7_window_nonstrict (ops : List Op) (id : Nat) (s : Stream)
    (h : (execOps ops).streams id = some s) :
    s.start_time ≤ s.end_time :=
  (execOps_LedgerInv ops id s h).2.2

/-- Witness for C7: the zero-length-window stream stored by a creation. -/
theorem C7_window_nonstrict_witness :
    (execOps [Op.create ⟨0⟩ (fun _ => true) "carol" "dave" 100 5 5]).streams
        1 = some ⟨"carol", "dave", 100, 0, 5, 5⟩ ∧
    (Stream.mk "carol" "dave" 100 0 5 5).start_time ≤
      (Stream.mk "carol" "dave" 100 0 5 5).end_time :=
  ⟨rfl, C7_window_nonstrict
    [Op.create ⟨0⟩ (fun _ => true) "carol" "dave" 100 5 5] 1
    ⟨"carol", "dave", 100, 0, 5, 5⟩ rfl⟩

/-- C8: from instantiation (counter 0), `N` successive successful
creations are assigned exactly the identifiers `1, 2, ..., N`
(`List.range' 1 N`) — pairwise strictly increasing, hence distinct — and
the counter increment is overflow-checked: whenever `counter + 1` would
overflow `Uint128`, `save_stream` fails with the overflow error instead of
wrapping. -/
theorem C8_identifiers (env : Env) (api : String → Bool)
    (owner recipient : String) (amount ts te N : Nat)
    (hwin : ts ≤ te) (hstart : env.block_time_nanos / 1000000 ≤ ts)
    (ho : api owner = true) (hr : api recipient = true)
    (hN : N < U128_MOD) :
    (iterCreate env api owner recipient amount ts te N).2 =
      List.range' 1 N ∧
    List.Pairwise (fun x1 x2 => x1 < x2)
      (iterCreate env api owner recipient amount ts te N).2 ∧
    ∀ st stream, U128_MOD ≤ st.stream_seq + 1 →
      save_stream st stream = .err .StdOverflow := by
  obtain ⟨hseq, hids⟩ :=
    iterCreate_spec env api owner recipient amount ts te hwin hstart ho hr N
      hN
  refine ⟨hids, ?_, ?_⟩
  · rw [hids]
    exact List.pairwise_lt_range' 1 N
  · intro st stream hof
    unfold save_stream checked_add
    rw [if_neg (by omega)]

/-- Witness for C8 with three creations: identifiers 1, 2, 3. -/
theorem C8_identifiers_witness :
    (iterCreate ⟨0⟩ (fun _ => true) "alice" "bob" 100 5 10 3).2 =
      List.range' 1 3 :=
  (C8_identifiers ⟨0⟩ (fun _ => true) "alice" "bob" 100 5 10 3 (by decide)
    (by decide) rfl rfl (by norm_num [U128_MOD])).1

end CwStream
